import Mathlib

/-!
Shallow embedding of the mylo-ing/api authentication and subscriber
handlers, together with proofs about them.

The embedding covers:
* the Redis-backed key-value store used for sign-in codes and sessions
  (`internal/redis`, `Store`);
* the JWT middleware `RequireJWT` and its six ordered checks
  (`internal/middleware`, `requireJWT`);
* the sign-in verification handler `VerifySignIn` and the code generator
  `generateSixDigitCode` (`internal/handlers` sign-in file);
* the subscriber CRUD handlers `CreateSubscriber` / `UpdateSubscriber`
  together with `validateSubscriberFields` and the email regular
  expression (`internal/handlers` subscriber file).

External collaborators (the JWT library's cryptographic verification, the
random source, token signing) enter as explicit oracle parameters; the two
stores are explicit state values threaded through each handler.
-/

namespace Api

/-! ## Key-value store (Redis) model

`Store` maps keys to values; `none` models an absent key.  The Go client's
`GetValue` returns an error (`redis.Nil`) exactly when the key is absent,
so a `none` result models the `err != nil` branch of the callers.
`SetValue`'s expirations are not modelled: an expired key is simply an
absent one. -/

def Store : Type := String → Option String

/-- GetValue retrieves a string value (part_002): `none` is the error/absent case. -/
def Store.get (s : Store) (k : String) : Option String := s k

/-- SetValue stores a string value (part_002). -/
def Store.set (s : Store) (k v : String) : Store :=
  fun q => if q = k then some v else s q

/-- DeleteKey removes a key (part_002). -/
def Store.del (s : Store) (k : String) : Store :=
  fun q => if q = k then none else s q

/-- A store holding nothing. -/
def emptyStore : Store := fun _ => none

/-! ## HTTP responses

Every error or success body in the handlers is a one-level JSON object of
string fields (`fiber.Map`), sent with an HTTP status: we model the full
response as the status plus that association list.  Two responses are
distinguishable to the caller iff they differ as `Response` values. -/

structure Response where
  status : Nat
  body : List (String × String)
deriving DecidableEq, Repr

/-! ## JWT middleware (part_003, `RequireJWT`)

Token verification (`jwt.ParseWithClaims` plus the `token.Valid` flag) is
cryptographic and external: it is passed in as an oracle
`verify : String → Option Claims` returning the parsed claims on success
and `none` on any parse/signature/expiry failure.  A claim value can be a
string or something of another JSON type (`jwt.MapClaims` is
`map[string]interface{}`; the handler type-asserts `.(string)`). -/

inductive JVal where
  | str : String → JVal
  | num : Int → JVal
  | boolean : Bool → JVal
  | other : JVal
deriving DecidableEq

def Claims : Type := String → Option JVal

inductive AuthOutcome where
  | allow : AuthOutcome
  | deny : Response → AuthOutcome
deriving DecidableEq

def respMissingHeader : Response := ⟨401, [("error", "Missing Authorization header")]⟩
def respBadFormat : Response := ⟨401, [("error", "Invalid token format")]⟩
def respInvalidToken : Response := ⟨401, [("error", "Invalid or expired token")]⟩
def respNoSessionClaim : Response := ⟨401, [("error", "Session key missing in token")]⟩
def respSessionNotFound : Response := ⟨401, [("error", "Session not found or expired")]⟩
def respSessionInvalid : Response := ⟨401, [("error", "Session invalid or not found")]⟩

/-- Go's `strings.TrimPrefix s pre`: drop `pre` when it starts `s`, else return
`s` unchanged. -/
def trimPreOf (s pre : String) : String :=
  if s.data.take pre.data.length = pre.data then String.mk (s.data.drop pre.data.length)
  else s

/-- `RequireJWT` (part_003 lines 15-54).  `authHeader` is `c.Get "Authorization"`,
which yields `""` when the header is absent. -/
def requireJWT (verify : String → Option Claims) (kv : Store) (authHeader : String) :
    AuthOutcome :=
  if authHeader = "" then .deny respMissingHeader
  else
    let tokenString := trimPreOf authHeader "Bearer "
    if tokenString = authHeader then .deny respBadFormat
    else
      match verify tokenString with
      | none => .deny respInvalidToken
      | some claims =>
        match claims "session_key" with
        | some (JVal.str sessionKey) =>
          match kv.get ("session:" ++ sessionKey) with
          | none => .deny respSessionNotFound
          | some sessionVal =>
            if sessionVal = "" then .deny respSessionInvalid
            else .allow
        | _ => .deny respNoSessionClaim

/-! ## Sign-in verification (part_005, `VerifySignIn`)

The random session id (`randomToken 16`) and JWT signing
(`middleware.GenerateJWT`) are oracles.  `sessionSetFails` injects the
outcome of the session `SetValue` call, so the write-failure branch can be
examined; the deletion of the sign-in code has its error discarded by the
handler (`_ = redisclient.DeleteKey ...`) and the store delete itself is
modelled as succeeding. -/

def signInCodeKey (email : String) : String := "signin_code:" ++ email

def userProfile (email : String) : String :=
  "\x7b\"email\":\"" ++ email ++ "\"\x7d"

def respMissingEmailOrCode : Response := ⟨400, [("error", "Missing email or code")]⟩
def respNoCode : Response := ⟨400, [("error", "No sign-in code found or code expired")]⟩
def respInvalidCode : Response := ⟨401, [("error", "Invalid code")]⟩
def respSessionStoreFailed : Response := ⟨500, [("error", "Could not store session")]⟩
def respTokenFailed : Response := ⟨500, [("error", "Could not create token")]⟩

def verifySignIn (kv : Store) (email code : String) (sessionID : String)
    (sessionSetFails : Bool) (signToken : String → Option String) :
    Response × Store :=
  if email = "" ∨ code = "" then (respMissingEmailOrCode, kv)
  else
    match kv.get (signInCodeKey email) with
    | none => (respNoCode, kv)
    | some storedCode =>
      if storedCode = "" then (respNoCode, kv)
      else if storedCode = code then
        let kv1 := kv.del (signInCodeKey email)
        if sessionSetFails then (respSessionStoreFailed, kv1)
        else
          let kv2 := kv1.set ("session:" ++ sessionID) (userProfile email)
          match signToken sessionID with
          | none => (respTokenFailed, kv2)
          | some token => (⟨200, [("token", token)]⟩, kv2)
      else (respInvalidCode, kv)

/-! ## Six-digit code generator (part_005, `generateSixDigitCode`)

`randBytes` is the outcome of `crypto/rand.Read` on a 3-byte buffer:
`some (b0, b1, b2)` on success, `none` on randomness failure, in which case
the handler falls back to `time.Now().UnixNano()` (`nowUnixNano`).  Both
paths end in `fmt.Sprintf "%06d"`, modelled by `format06d`. -/

/-- The decimal digits of `n`, most significant first (the digits
`fmt.Sprintf "%d"` prints for a non-negative integer). -/
def natDecimal (n : Nat) : List Char :=
  if _h : n < 10 then [Nat.digitChar n]
  else natDecimal (n / 10) ++ [Nat.digitChar (n % 10)]
decreasing_by exact Nat.div_lt_self (by omega) (by omega)

/-- Go's `fmt.Sprintf "%06d" n` for a non-negative `n`: the decimal digits,
left-padded with zeros to width 6. -/
def format06d (n : Nat) : String :=
  String.mk (List.replicate (6 - (natDecimal n).length) '0' ++ natDecimal n)

def generateSixDigitCode (randBytes : Option (Nat × Nat × Nat)) (nowUnixNano : Nat) :
    String :=
  match randBytes with
  | some (b0, b1, b2) => format06d (((b0 <<< 16) ||| (b1 <<< 8) ||| b2) % 1000000)
  | none => format06d (nowUnixNano % 1000000)

/-! ## Subscriber aggregate (part_000, part_001, part_004)

The relational store is a list of subscriber rows and a list of
subscriber-type rows, with serial-style counters for the ids the store
assigns on insert.  Timestamps are not modelled (no claim mentions them).
A request body is a `SubscriberInput`; its `subscriberTypes` field is
`none` when the JSON field is entirely absent (Go `nil` slice) and
`some []` when an explicit empty list was sent. -/

structure SubscriberRow where
  id : Nat
  email : String
  name : String
deriving DecidableEq, Repr

structure SubscriberTypeRow where
  id : Nat
  subscriberId : Nat
  name : String
deriving DecidableEq, Repr

structure DB where
  subscribers : List SubscriberRow
  types : List SubscriberTypeRow
  nextSubId : Nat
  nextTypeId : Nat
deriving DecidableEq, Repr

structure SubscriberTypeInput where
  subscriberId : Nat
  name : String
deriving DecidableEq, Repr

structure SubscriberInput where
  email : String
  name : String
  subscriberTypes : Option (List SubscriberTypeInput)
deriving DecidableEq, Repr

/-- `db.First(&subscriber, id)`. -/
def DB.findSub (db : DB) (i : Nat) : Option SubscriberRow :=
  db.subscribers.find? (fun r => r.id == i)

/-- `db.Preload("SubscriberTypes")` for one subscriber: its type rows. -/
def DB.typesOf (db : DB) (i : Nat) : List SubscriberTypeRow :=
  db.types.filter (fun r => r.subscriberId == i)

/-- `db.Where("subscriber_id = ?", i).Delete(&models.SubscriberType{})`. -/
def DB.deleteTypesOf (db : DB) (i : Nat) : DB :=
  { db with types := db.types.filter (fun r => !(r.subscriberId == i)) }

/-- The rows `db.Create(&rows)` inserts for a list of type inputs, ids
assigned serially from `nextId`; each row keeps the input's
`subscriber_id` field (the handlers set that field before inserting). -/
def mkTypeRows (nextId : Nat) : List SubscriberTypeInput → List SubscriberTypeRow
  | [] => []
  | t :: rest => ⟨nextId, t.subscriberId, t.name⟩ :: mkTypeRows (nextId + 1) rest

/-- `db.Create(&typeRows)`: append the new rows, advancing the id counter. -/
def DB.insertTypeRows (db : DB) (ts : List SubscriberTypeInput) : DB :=
  { db with
    types := db.types ++ mkTypeRows db.nextTypeId ts
    nextTypeId := db.nextTypeId + ts.length }

/-- `db.Save(&existing)`: overwrite the subscriber row with the same id. -/
def DB.saveSub (db : DB) (row : SubscriberRow) : DB :=
  { db with subscribers := db.subscribers.map (fun r => if r.id == row.id then row else r) }

/-! ### Email validation (part_004 lines 14-30)

The Go pattern is `^[a-zA-Z0-9._%+\-]+@[a-zA-Z0-9.\-]+\.[a-zA-Z]{2,}$`.
A string matches iff it decomposes as `local ++ "@" ++ domain ++ "." ++ tld`
with `local` a non-empty run of local-part characters, `domain` a non-empty
run of domain characters, and `tld` at least two letters running to the end
of the string.  `emailMatchL` decides exactly that decomposition by
searching over the position `i` of the `@` and the position `j` of the
final `.`. -/

def isLocalChar (c : Char) : Bool :=
  c.isAlpha || c.isDigit || c = '.' || c = '_' || c = '%' || c = '+' || c = '-'

def isDomainChar (c : Char) : Bool :=
  c.isAlpha || c.isDigit || c = '.' || c = '-'

def emailMatchL (cs : List Char) : Bool :=
  (List.range cs.length).any (fun i =>
    (List.range cs.length).any (fun j =>
      decide (i < j) && cs.getD i ' ' == '@' && cs.getD j ' ' == '.' &&
      !(cs.take i).isEmpty && (cs.take i).all isLocalChar &&
      !((cs.drop (i + 1)).take (j - (i + 1))).isEmpty &&
      ((cs.drop (i + 1)).take (j - (i + 1))).all isDomainChar &&
      decide (2 ≤ (cs.drop (j + 1)).length) && (cs.drop (j + 1)).all Char.isAlpha))

/-- `emailRegex.MatchString` (part_004 line 16). -/
def emailMatch (s : String) : Bool := emailMatchL s.data

/-- Go's `strings.TrimSpace`: remove leading and trailing whitespace. -/
def trimSpace (s : String) : String :=
  String.mk (((s.data.dropWhile Char.isWhitespace).reverse.dropWhile
    Char.isWhitespace).reverse)

/-- `validateSubscriberFields` (part_004 lines 19-30): `some msg` is the
returned error, `none` is success. -/
def validateSubscriberFields (email nm : String) : Option String :=
  if email = "" ∨ emailMatch email = false then some "invalid or missing email"
  else if trimSpace nm = "" then some "missing name"
  else none

/-! ### Create and Update handlers (part_004) -/

inductive CreateResult where
  | created : SubscriberRow → List SubscriberTypeRow → CreateResult
  | badRequest : String → CreateResult
deriving DecidableEq, Repr

inductive UpdResult where
  | ok : SubscriberRow → List SubscriberTypeRow → UpdResult
  | badRequest : String → UpdResult
  | notFound : UpdResult
deriving DecidableEq, Repr

/-- `CreateSubscriber` (part_004 lines 44-71): validate, then persist the
subscriber and its supplied type children (GORM points each child at the
new row's id), then return the aggregate re-read with its children. -/
def createSubscriber (db : DB) (input : SubscriberInput) : CreateResult × DB :=
  match validateSubscriberFields input.email input.name with
  | some msg => (.badRequest msg, db)
  | none =>
    let row : SubscriberRow := ⟨db.nextSubId, input.email, input.name⟩
    let ts := (input.subscriberTypes.getD []).map
      (fun t => { t with subscriberId := row.id })
    let db1 : DB :=
      { subscribers := db.subscribers ++ [row]
        types := db.types ++ mkTypeRows db.nextTypeId ts
        nextSubId := db.nextSubId + 1
        nextTypeId := db.nextTypeId + ts.length }
    (.created row (db1.typesOf row.id), db1)

/-- `UpdateSubscriber` (part_004 lines 132-203): fetch, validate, replace the
base fields, overwrite the type children according to the input's list
(present non-empty / present empty / absent), save, and re-read. -/
def updateSubscriber (db : DB) (i : Nat) (input : SubscriberInput) : UpdResult × DB :=
  match db.findSub i with
  | none => (.notFound, db)
  | some existing =>
    match validateSubscriberFields input.email input.name with
    | some msg => (.badRequest msg, db)
    | none =>
      let existing1 : SubscriberRow := { existing with email := input.email, name := input.name }
      let db1 : DB :=
        match input.subscriberTypes with
        | some ts =>
          if ts.length > 0 then
            (db.deleteTypesOf existing.id).insertTypeRows
              (ts.map (fun t => { t with subscriberId := existing.id }))
          else db.deleteTypesOf existing.id
        | none => db
      let db2 := db1.saveSub existing1
      (.ok existing1 (db2.typesOf existing.id), db2)

/-! ## Helper lemmas: store operations and key shapes -/

lemma Store.get_set_eq (s : Store) (k v : String) : (s.set k v).get k = some v := by
  simp [Store.get, Store.set]

lemma Store.get_set_ne (s : Store) (k v q : String) (h : q ≠ k) :
    (s.set k v).get q = s.get q := by
  simp [Store.get, Store.set, h]

lemma Store.get_del_eq (s : Store) (k : String) : (s.del k).get k = none := by
  simp [Store.get, Store.del]

lemma Store.get_del_ne (s : Store) (k q : String) (h : q ≠ k) :
    (s.del k).get q = s.get q := by
  simp [Store.get, Store.del, h]

/-- Session keys and sign-in-code keys never collide: the prefixes
`"session:"` and `"signin_code:"` differ at their second character. -/
lemma session_key_ne_signInCodeKey (a b : String) : "session:" ++ a ≠ signInCodeKey b := by
  intro h
  have h2 := congrArg String.data h
  rw [signInCodeKey, String.data_append, String.data_append] at h2
  have e1 : "session:".data = ['s', 'e', 's', 's', 'i', 'o', 'n', ':'] := rfl
  have e2 : "signin_code:".data = ['s', 'i', 'g', 'n', 'i', 'n', '_', 'c', 'o', 'd', 'e', ':'] := rfl
  rw [e1, e2] at h2
  simp at h2

lemma append_ne_empty (pre t : String) (h : pre ≠ "") : pre ++ t ≠ "" := by
  intro he
  apply h
  have h2 := congrArg (fun s => s.data.length) he
  simp [String.data_append] at h2
  exact String.ext (List.length_eq_zero.mp h2.1)

lemma ne_append_self (pre t : String) (h : pre ≠ "") : t ≠ pre ++ t := by
  intro he
  apply h
  have h2 := congrArg (fun s => s.data.length) he
  simp [String.data_append] at h2
  exact String.ext (List.length_eq_zero.mp h2)

lemma trimPreOf_append (pre t : String) : trimPreOf (pre ++ t) pre = t := by
  unfold trimPreOf
  rw [String.data_append, List.take_left, List.drop_left, if_pos rfl]

lemma trimPreOf_of_no_pre (s pre : String) (h : ∀ t, s ≠ pre ++ t) :
    trimPreOf s pre = s := by
  unfold trimPreOf
  rw [if_neg]
  intro hk
  apply h (String.mk (s.data.drop pre.data.length))
  apply String.ext
  rw [String.data_append]
  conv_lhs => rw [← List.take_append_drop pre.data.length s.data]
  rw [hk]

/-! ## Claim C1: the six ordered checks of RequireJWT -/

/-- Claim C1: for every Authorization header value, `RequireJWT` applies its
checks in the stated order with the first failing check winning: a missing
(empty) header denies; a value without the `"Bearer "` prefix denies; a
token failing signature/expiry verification denies; a token whose
`session_key` claim is missing or not a string denies; a failed (absent) or
empty lookup of `"session:" ++ sessionKey` denies; otherwise the request is
allowed.  In particular a cryptographically valid, unexpired token whose
referenced session record is absent is denied. -/
theorem C1_requireJWT_ordered_checks :
    ∀ (verify : String → Option Claims) (kv : Store) (h : String),
      (h = "" → requireJWT verify kv h = .deny respMissingHeader) ∧
      (h ≠ "" → (∀ t, h ≠ "Bearer " ++ t) →
        requireJWT verify kv h = .deny respBadFormat) ∧
      (∀ t, h = "Bearer " ++ t → verify t = none →
        requireJWT verify kv h = .deny respInvalidToken) ∧
      (∀ t claims, h = "Bearer " ++ t → verify t = some claims →
        (∀ s, claims "session_key" ≠ some (JVal.str s)) →
        requireJWT verify kv h = .deny respNoSessionClaim) ∧
      (∀ t claims sk, h = "Bearer " ++ t → verify t = some claims →
        claims "session_key" = some (JVal.str sk) →
        kv.get ("session:" ++ sk) = none →
        requireJWT verify kv h = .deny respSessionNotFound) ∧
      (∀ t claims sk, h = "Bearer " ++ t → verify t = some claims →
        claims "session_key" = some (JVal.str sk) →
        kv.get ("session:" ++ sk) = some "" →
        requireJWT verify kv h = .deny respSessionInvalid) ∧
      (∀ t claims sk v, h = "Bearer " ++ t → verify t = some claims →
        claims "session_key" = some (JVal.str sk) →
        kv.get ("session:" ++ sk) = some v → v ≠ "" →
        requireJWT verify kv h = .allow) := by
  intro verify kv h
  have hb : ("Bearer " : String) ≠ "" := by decide
  refine ⟨?_, ?_, ?_, ?_, ?_, ?_, ?_⟩
  · intro hh
    simp [requireJWT, hh]
  · intro hne hnp
    simp [requireJWT, hne, trimPreOf_of_no_pre h "Bearer " hnp]
  · intro t ht hv
    subst ht
    simp [requireJWT, append_ne_empty "Bearer " t hb, trimPreOf_append,
      (ne_append_self "Bearer " t hb), hv]
  · intro t claims ht hv hnc
    subst ht
    rcases hq : claims "session_key" with _ | jv
    · simp [requireJWT, append_ne_empty "Bearer " t hb, trimPreOf_append,
        (ne_append_self "Bearer " t hb), hv, hq]
    · cases jv with
      | str s => exact absurd hq (hnc s)
      | num n =>
        simp [requireJWT, append_ne_empty "Bearer " t hb, trimPreOf_append,
          (ne_append_self "Bearer " t hb), hv, hq]
      | boolean b =>
        simp [requireJWT, append_ne_empty "Bearer " t hb, trimPreOf_append,
          (ne_append_self "Bearer " t hb), hv, hq]
      | other =>
        simp [requireJWT, append_ne_empty "Bearer " t hb, trimPreOf_append,
          (ne_append_self "Bearer " t hb), hv, hq]
  · intro t claims sk ht hv hc hg
    subst ht
    simp [requireJWT, append_ne_empty "Bearer " t hb, trimPreOf_append,
      (ne_append_self "Bearer " t hb), hv, hc, hg]
  · intro t claims sk ht hv hc hg
    subst ht
    simp [requireJWT, append_ne_empty "Bearer " t hb, trimPreOf_append,
      (ne_append_self "Bearer " t hb), hv, hc, hg]
  · intro t claims sk v ht hv hc hg hne
    subst ht
    simp [requireJWT, append_ne_empty "Bearer " t hb, trimPreOf_append,
      (ne_append_self "Bearer " t hb), hv, hc, hg, hne]

/-! ## Claim C3: deny-path uniformity -/

/-- Claim C3 counterexample: a run failing signature/expiry verification
(step 3) and a run failing the session lookup (step 5) both deny with
status 401, but their full responses differ — the deny reason is sent to
the caller in the JSON body, so the two runs are distinguishable. -/
theorem C3_deny_responses_distinguishable :
    requireJWT (fun _ => none) emptyStore "Bearer t" = .deny respInvalidToken ∧
    requireJWT
        (fun _ => some (fun k => if k = "session_key" then some (JVal.str "s") else none))
        emptyStore "Bearer t" = .deny respSessionNotFound ∧
    respInvalidToken ≠ respSessionNotFound := by
  refine ⟨by decide, by decide, by decide⟩

/-- Claim C3 (amended): every deny path of `RequireJWT` carries the same
unauthorized status 401; the response bodies, however, differ between
checks (see `C3_deny_responses_distinguishable`), so only the status — not
the full response — is uniform across deny paths. -/
theorem C3_amended_every_deny_is_401 :
    ∀ (verify : String → Option Claims) (kv : Store) (h : String) (r : Response),
      requireJWT verify kv h = .deny r → r.status = 401 := by
  intro verify kv h r hr
  simp only [requireJWT] at hr
  by_cases h0 : h = ""
  · rw [if_pos h0] at hr
    cases hr
    rfl
  · rw [if_neg h0] at hr
    by_cases h1 : trimPreOf h "Bearer " = h
    · rw [if_pos h1] at hr
      cases hr
      rfl
    · rw [if_neg h1] at hr
      rcases hv : verify (trimPreOf h "Bearer ") with _ | claims <;> simp only [hv] at hr
      · cases hr
        rfl
      · rcases hc : claims "session_key" with _ | jv <;> simp only [hc] at hr
        · cases hr
          rfl
        · cases jv with
          | str sk =>
            rcases hg : kv.get ("session:" ++ sk) with _ | v <;> simp only [hg] at hr
            · cases hr
              rfl
            · by_cases hvv : v = ""
              · rw [if_pos hvv] at hr
                cases hr
                rfl
              · rw [if_neg hvv] at hr
                simp at hr
          | num n =>
            cases hr
            rfl
          | boolean b =>
            cases hr
            rfl
          | other =>
            cases hr
            rfl

/-- Witness for the amended C3 at a concrete input: the missing-header
denial indeed has status 401. -/
theorem C3_amended_every_deny_is_401_witness : respMissingHeader.status = 401 :=
  C3_amended_every_deny_is_401 (fun _ => none) emptyStore "" respMissingHeader (by decide)

/-! ## Claim C2: sign-in codes are single use -/

/-- Claim C2: once `VerifySignIn` succeeds for `(email, code)`, the stored
code at `"signin_code:" ++ email` is absent from the store, and a second
call with the same pair fails with the no-code rejection, leaving the store
unchanged. -/
theorem C2_sign_in_code_single_use :
    ∀ (kv : Store) (email code sid : String) (b1 : Bool) (sign : String → Option String)
      (r1 : Response) (kv1 : Store),
      verifySignIn kv email code sid b1 sign = (r1, kv1) →
      r1.status = 200 →
      kv1.get (signInCodeKey email) = none ∧
      (∀ sid2 b2 sign2, verifySignIn kv1 email code sid2 b2 sign2 = (respNoCode, kv1)) := by
  intro kv email code sid b1 sign r1 kv1 heq hst
  by_cases hec : email = "" ∨ code = ""
  · simp [verifySignIn, hec] at heq
    rw [← heq.1, respMissingEmailOrCode] at hst
    simp at hst
  · push_neg at hec
    obtain ⟨he, hc⟩ := hec
    rcases hget : kv.get (signInCodeKey email) with _ | sc
    · simp [verifySignIn, he, hc, hget] at heq
      rw [← heq.1, respNoCode] at hst
      simp at hst
    · by_cases hsc : sc = ""
      · simp [verifySignIn, he, hc, hget, hsc] at heq
        rw [← heq.1, respNoCode] at hst
        simp at hst
      · by_cases hm : sc = code
        · subst hm
          cases b1 with
          | true =>
            simp [verifySignIn, he, hc, hget, hsc] at heq
            rw [← heq.1, respSessionStoreFailed] at hst
            simp at hst
          | false =>
            rcases hsign : sign sid with _ | tok
            · simp [verifySignIn, he, hc, hget, hsc, hsign] at heq
              rw [← heq.1, respTokenFailed] at hst
              simp at hst
            · simp [verifySignIn, he, hc, hget, hsc, hsign] at heq
              have hkv1 : kv1 =
                  (kv.del (signInCodeKey email)).set ("session:" ++ sid) (userProfile email) :=
                heq.2.symm
              have hnone : kv1.get (signInCodeKey email) = none := by
                rw [hkv1, Store.get_set_ne _ _ _ _
                    (Ne.symm (session_key_ne_signInCodeKey sid email)),
                  Store.get_del_eq]
              constructor
              · exact hnone
              · intro sid2 b2 sign2
                simp [verifySignIn, he, hc, hnone]
        · simp [verifySignIn, he, hc, hget, hsc, hm] at heq
          rw [← heq.1, respInvalidCode] at hst
          simp at hst

/-- Concrete witness store before a sign-in verification: one pending code. -/
def wKv0 : Store := emptyStore.set (signInCodeKey "e") "1"

/-- The store after the successful verification in the C2 witness. -/
def wKv1 : Store := (wKv0.del (signInCodeKey "e")).set ("session:" ++ "sid") (userProfile "e")

/-- Witness for C2 at a concrete store: verifying code "1" for email "e"
consumes the stored code and a replay is rejected. -/
theorem C2_sign_in_code_single_use_witness :
    wKv1.get (signInCodeKey "e") = none ∧
    (∀ sid2 b2 sign2, verifySignIn wKv1 "e" "1" sid2 b2 sign2 = (respNoCode, wKv1)) :=
  C2_sign_in_code_single_use wKv0 "e" "1" "sid" false (fun _ => some "tok")
    ⟨200, [("token", "tok")]⟩ wKv1 rfl rfl

/-! ## Claim C5: the status distinctions of VerifySignIn -/

/-- Claim C5: with both fields supplied, an absent stored code and an empty
stored code are rejected with the same bad-request response (no
distinction), while a stored code that differs from the supplied one under
exact string equality is rejected as unauthorized (401), not bad-request:
`respNoCode` has status 400 and `respInvalidCode` status 401. -/
theorem C5_verify_status_distinctions :
    ∀ (kv : Store) (email code sid : String) (b : Bool) (sign : String → Option String),
      (email ≠ "" → code ≠ "" → kv.get (signInCodeKey email) = none →
        verifySignIn kv email code sid b sign = (respNoCode, kv)) ∧
      (email ≠ "" → code ≠ "" → kv.get (signInCodeKey email) = some "" →
        verifySignIn kv email code sid b sign = (respNoCode, kv)) ∧
      (∀ sc, email ≠ "" → code ≠ "" → kv.get (signInCodeKey email) = some sc →
        sc ≠ "" → sc ≠ code →
        verifySignIn kv email code sid b sign = (respInvalidCode, kv)) ∧
      respNoCode.status = 400 ∧ respInvalidCode.status = 401 := by
  intro kv email code sid b sign
  refine ⟨?_, ?_, ?_, rfl, rfl⟩
  · intro he hc hget
    simp [verifySignIn, he, hc, hget]
  · intro he hc hget
    simp [verifySignIn, he, hc, hget]
  · intro sc he hc hget hsc hm
    simp [verifySignIn, he, hc, hget, hsc, hm]

/-! ## Claim C9: a session-write failure after the code match -/

/-- Claim C9: when the session-store write fails after a successful code
match, `VerifySignIn` returns the server error, no token and no session
record are produced, but the sign-in code has already been deleted and is
not restored: a retry with the same pair fails with the no-code
rejection. -/
theorem C9_session_write_failure_consumes_code :
    ∀ (kv : Store) (email code sid : String) (sign : String → Option String) (sc : String),
      email ≠ "" → code ≠ "" →
      kv.get (signInCodeKey email) = some sc → sc ≠ "" → sc = code →
      (verifySignIn kv email code sid true sign).1 = respSessionStoreFailed ∧
      (verifySignIn kv email code sid true sign).2.get (signInCodeKey email) = none ∧
      (∀ s, (verifySignIn kv email code sid true sign).2.get ("session:" ++ s) =
        kv.get ("session:" ++ s)) ∧
      (∀ sid2 b2 sign2,
        verifySignIn (verifySignIn kv email code sid true sign).2 email code sid2 b2 sign2 =
          (respNoCode, (verifySignIn kv email code sid true sign).2)) := by
  intro kv email code sid sign sc he hc hget hsc hm
  have hout : verifySignIn kv email code sid true sign =
      (respSessionStoreFailed, kv.del (signInCodeKey email)) := by
    simp [verifySignIn, he, hc, hget, hsc, hm]
  rw [hout]
  refine ⟨rfl, Store.get_del_eq kv (signInCodeKey email), ?_, ?_⟩
  · intro s
    exact Store.get_del_ne kv (signInCodeKey email) ("session:" ++ s)
      (session_key_ne_signInCodeKey s email)
  · intro sid2 b2 sign2
    simp [verifySignIn, he, hc, Store.get_del_eq]

/-- Witness for C9 at a concrete store: the failing session write leaves
the error response, the code consumed, the sessions untouched, and the
retry rejected. -/
theorem C9_session_write_failure_consumes_code_witness :
    (verifySignIn wKv0 "e" "1" "sid" true (fun _ => some "tok")).1 = respSessionStoreFailed ∧
    (verifySignIn wKv0 "e" "1" "sid" true (fun _ => some "tok")).2.get (signInCodeKey "e") =
      none ∧
    (∀ s, (verifySignIn wKv0 "e" "1" "sid" true (fun _ => some "tok")).2.get
        ("session:" ++ s) = wKv0.get ("session:" ++ s)) ∧
    (∀ sid2 b2 sign2,
      verifySignIn (verifySignIn wKv0 "e" "1" "sid" true (fun _ => some "tok")).2 "e" "1"
          sid2 b2 sign2 =
        (respNoCode, (verifySignIn wKv0 "e" "1" "sid" true (fun _ => some "tok")).2)) :=
  C9_session_write_failure_consumes_code wKv0 "e" "1" "sid" (fun _ => some "tok") "1"
    (by decide) (by decide) rfl (by decide) rfl

/-! ## Claim C8: the generated code is always six decimal digits -/

lemma digitChar_isDigit (d : Nat) (h : d < 10) : (Nat.digitChar d).isDigit = true := by
  interval_cases d <;> decide

lemma natDecimal_all_digits : ∀ n : Nat, ∀ c ∈ natDecimal n, c.isDigit = true := by
  intro n
  induction n using Nat.strong_induction_on with
  | _ n ih =>
    intro c hc
    by_cases h10 : n < 10
    · rw [natDecimal, dif_pos h10] at hc
      simp at hc
      subst hc
      exact digitChar_isDigit n h10
    · rw [natDecimal, dif_neg h10] at hc
      rcases List.mem_append.mp hc with hmem | hmem
      · exact ih (n / 10) (Nat.div_lt_self (by omega) (by omega)) c hmem
      · simp at hmem
        subst hmem
        exact digitChar_isDigit (n % 10) (Nat.mod_lt n (by omega))

lemma natDecimal_length_le : ∀ (k n : Nat), 1 ≤ k → n < 10 ^ k → (natDecimal n).length ≤ k := by
  intro k
  induction k with
  | zero => exact fun n h1 _ => absurd h1 (by omega)
  | succ k ih =>
    intro n _ hn
    by_cases h10 : n < 10
    · rw [natDecimal, dif_pos h10]
      simp
    · rw [natDecimal, dif_neg h10]
      have hdiv : n / 10 < 10 ^ k := by
        rw [Nat.div_lt_iff_lt_mul (by omega)]
        calc n < 10 ^ (k + 1) := hn
        _ = 10 ^ k * 10 := by ring
      rcases k with _ | k
      · simp at hdiv
        omega
      · have := ih (n / 10) (by omega) hdiv
        simp [List.length_append]
        omega

/-- `fmt.Sprintf "%06d"` of a value below 1000000 is exactly six decimal
digits. -/
lemma format06d_six_digits (n : Nat) (h : n < 1000000) :
    (format06d n).length = 6 ∧ ∀ c ∈ (format06d n).data, c.isDigit = true := by
  have hle : (natDecimal n).length ≤ 6 := by
    apply natDecimal_length_le 6 n (by omega)
    norm_num
    exact h
  constructor
  · show (String.mk _).length = 6
    rw [String.length_mk]
    simp [List.length_append]
    omega
  · intro c hc
    rcases List.mem_append.mp hc with hmem | hmem
    · rw [List.eq_of_mem_replicate hmem]
      decide
    · exact natDecimal_all_digits n c hmem

/-- Claim C8: on both the random path and the time-derived fallback path,
`generateSixDigitCode` returns a string of exactly six decimal digits. -/
theorem C8_generateSixDigitCode_six_decimal_digits :
    ∀ (randBytes : Option (Nat × Nat × Nat)) (nowUnixNano : Nat),
      (generateSixDigitCode randBytes nowUnixNano).length = 6 ∧
      ∀ c ∈ (generateSixDigitCode randBytes nowUnixNano).data, c.isDigit = true := by
  intro randBytes nowUnixNano
  cases randBytes with
  | none => exact format06d_six_digits _ (Nat.mod_lt _ (by omega))
  | some b =>
    obtain ⟨b0, b1, b2⟩ := b
    exact format06d_six_digits _ (Nat.mod_lt _ (by omega))

/-! ## Claim C7: validation precedes mutation -/

/-- Any string accepted by the email pattern contains an `@` and ends in a
dot followed by at least two letters. -/
lemma emailMatchL_spec (cs : List Char) (h : emailMatchL cs = true) :
    (∃ c ∈ cs, c = '@') ∧
    ∃ p t, cs = p ++ '.' :: t ∧ 2 ≤ t.length ∧ ∀ c ∈ t, c.isAlpha = true := by
  unfold emailMatchL at h
  rw [List.any_eq_true] at h
  obtain ⟨i, hi, h⟩ := h
  rw [List.any_eq_true] at h
  obtain ⟨j, hj, h⟩ := h
  rw [List.mem_range] at hi hj
  simp only [Bool.and_eq_true, decide_eq_true_eq, beq_iff_eq] at h
  obtain ⟨⟨⟨⟨⟨⟨⟨⟨_, hat⟩, hdot⟩, _⟩, _⟩, _⟩, _⟩, hlen⟩, halpha⟩ := h
  rw [List.getD_eq_getElem cs ' ' hi] at hat
  rw [List.getD_eq_getElem cs ' ' hj] at hdot
  constructor
  · exact ⟨cs[i], List.getElem_mem hi, hat⟩
  · have h1 := (List.take_append_drop j cs).symm
    rw [List.drop_eq_getElem_cons hj, hdot] at h1
    exact ⟨cs.take j, cs.drop (j + 1), h1, hlen, List.all_eq_true.mp halpha⟩

/-- An email that is empty, contains no `@`, or has no suffix of the form
`"." ++ (two or more letters)`, or a name blank after trimming, makes
`validateSubscriberFields` return an error. -/
lemma validate_some_of_invalid (email nm : String)
    (h : email = "" ∨ (∀ c ∈ email.data, c ≠ '@') ∨
      (¬ ∃ p t, email.data = p ++ '.' :: t ∧ 2 ≤ t.length ∧ ∀ c ∈ t, c.isAlpha = true) ∨
      trimSpace nm = "") :
    ∃ m, validateSubscriberFields email nm = some m := by
  unfold validateSubscriberFields
  by_cases h1 : email = "" ∨ emailMatch email = false
  · exact ⟨_, if_pos h1⟩
  · push_neg at h1
    obtain ⟨hne, hm⟩ := h1
    have hmt : emailMatchL email.data = true := by
      rcases hb : emailMatch email with _ | _
      · exact absurd hb hm
      · exact hb
    have hspec := emailMatchL_spec email.data hmt
    rcases h with h | h | h | h
    · exact absurd h hne
    · obtain ⟨c, hc, hceq⟩ := hspec.1
      exact absurd hceq (h c hc)
    · exact absurd hspec.2 h
    · rw [if_neg, if_pos h]
      · exact ⟨_, rfl⟩
      · push_neg
        exact ⟨hne, hm⟩

/-- Claim C7: for every input whose email is empty, lacks an `@`, or lacks
a dot-plus-two-letters suffix, or whose name is blank after trimming,
`CreateSubscriber` and `UpdateSubscriber` reject with a validation error
and leave the relational store entirely unchanged (`UpdateSubscriber`
answers not-found, also without mutating, when the addressed id does not
exist). -/
theorem C7_validation_before_mutation :
    ∀ (db : DB) (i : Nat) (input : SubscriberInput),
      (input.email = "" ∨ (∀ c ∈ input.email.data, c ≠ '@') ∨
        (¬ ∃ p t, input.email.data = p ++ '.' :: t ∧ 2 ≤ t.length ∧
          ∀ c ∈ t, c.isAlpha = true) ∨
        trimSpace input.name = "") →
      (createSubscriber db input).2 = db ∧
      (∃ m, (createSubscriber db input).1 = .badRequest m) ∧
      (updateSubscriber db i input).2 = db ∧
      (db.findSub i ≠ none → ∃ m, (updateSubscriber db i input).1 = .badRequest m) := by
  intro db i input h
  obtain ⟨m, hv⟩ := validate_some_of_invalid input.email input.name h
  refine ⟨?_, ⟨m, ?_⟩, ?_, ?_⟩
  · simp [createSubscriber, hv]
  · simp [createSubscriber, hv]
  · rcases hf : db.findSub i with _ | ex
    · simp [updateSubscriber, hf]
    · simp [updateSubscriber, hf, hv]
  · intro hne
    rcases hf : db.findSub i with _ | ex
    · exact absurd hf hne
    · exact ⟨m, by simp [updateSubscriber, hf, hv]⟩

/-- Concrete database used by the subscriber witnesses: one subscriber
(id 1) with two type rows, plus an unrelated subscriber (id 2) with one. -/
def wDb : DB :=
  { subscribers := [⟨1, "a@b.co", "Alice"⟩, ⟨2, "c@d.co", "Carol"⟩]
    types := [⟨10, 1, "shopper"⟩, ⟨11, 1, "business"⟩, ⟨12, 2, "driver"⟩]
    nextSubId := 3
    nextTypeId := 13 }

/-- Witness for C7 at a concrete input: an empty email is rejected by both
handlers and the store is untouched. -/
theorem C7_validation_before_mutation_witness :
    (createSubscriber wDb ⟨"", "Bob", none⟩).2 = wDb ∧
    (∃ m, (createSubscriber wDb ⟨"", "Bob", none⟩).1 = .badRequest m) ∧
    (updateSubscriber wDb 1 ⟨"", "Bob", none⟩).2 = wDb ∧
    (wDb.findSub 1 ≠ none →
      ∃ m, (updateSubscriber wDb 1 ⟨"", "Bob", none⟩).1 = .badRequest m) :=
  C7_validation_before_mutation wDb 1 ⟨"", "Bob", none⟩ (Or.inl rfl)

/-! ## Claims C6 and C10: type-overwrite semantics of UpdateSubscriber -/

lemma findSub_id (db : DB) (i : Nat) (ex : SubscriberRow) (h : db.findSub i = some ex) :
    ex.id = i := by
  have := List.find?_some h
  simpa using this

lemma mkTypeRows_map_name : ∀ (n : Nat) (ts : List SubscriberTypeInput),
    (mkTypeRows n ts).map (fun r => r.name) = ts.map (fun t => t.name) := by
  intro n ts
  induction ts generalizing n with
  | nil => rfl
  | cons t rest ih => simp [mkTypeRows, ih]

lemma mkTypeRows_subscriberId (v : Nat) : ∀ (n : Nat) (ts : List SubscriberTypeInput),
    (∀ t ∈ ts, t.subscriberId = v) → ∀ r ∈ mkTypeRows n ts, r.subscriberId = v := by
  intro n ts
  induction ts generalizing n with
  | nil => intro _ r hr; simp [mkTypeRows] at hr
  | cons t rest ih =>
    intro hall r hr
    rcases List.mem_cons.mp hr with hr | hr
    · subst hr
      exact hall t (List.mem_cons_self t rest)
    · exact ih (n + 1) (fun u hu => hall u (List.mem_cons_of_mem t hu)) r hr

/-- Claim C6: for an update of an existing subscriber with valid fields, a
present non-empty type list fully replaces the children (exactly the new
names, all re-pointed at the path id), a present empty list deletes them
all, and an absent list leaves the type table untouched. -/
theorem C6_update_type_list_overwrite :
    ∀ (db : DB) (i : Nat) (input : SubscriberInput) (ex : SubscriberRow),
      db.findSub i = some ex →
      validateSubscriberFields input.email input.name = none →
      (∀ ts, input.subscriberTypes = some ts → ts ≠ [] →
        (((updateSubscriber db i input).2.typesOf i).map (fun r => r.name) =
          ts.map (fun t => t.name) ∧
        ∀ r ∈ (updateSubscriber db i input).2.typesOf i, r.subscriberId = i)) ∧
      (input.subscriberTypes = some [] → (updateSubscriber db i input).2.typesOf i = []) ∧
      (input.subscriberTypes = none → (updateSubscriber db i input).2.types = db.types) := by
  intro db i input ex hf hv
  have hid : ex.id = i := findSub_id db i ex hf
  refine ⟨?_, ?_, ?_⟩
  · intro ts hts hne
    have hlen : ts.length > 0 := by
      cases ts
      · exact absurd rfl hne
      · simp
    have hupd : (updateSubscriber db i input).2 =
        (((db.deleteTypesOf ex.id).insertTypeRows
            (ts.map (fun t => { t with subscriberId := ex.id }))).saveSub
          { ex with email := input.email, name := input.name }) := by
      simp [updateSubscriber, hf, hv, hts, hlen]
    rw [hupd]
    have htypes : (((db.deleteTypesOf ex.id).insertTypeRows
          (ts.map (fun t => { t with subscriberId := ex.id }))).saveSub
          { ex with email := input.email, name := input.name }).types =
        db.types.filter (fun r => !(r.subscriberId == ex.id)) ++
          mkTypeRows db.nextTypeId (ts.map (fun t => { t with subscriberId := ex.id })) := rfl
    have hsub : ∀ r ∈ mkTypeRows db.nextTypeId
        (ts.map (fun t => { t with subscriberId := ex.id })), r.subscriberId = i := by
      apply mkTypeRows_subscriberId
      intro t ht
      rcases List.mem_map.mp ht with ⟨u, _, hu⟩
      rw [← hu, hid]
    have hfilter : (db.types.filter (fun r => !(r.subscriberId == ex.id))).filter
        (fun r => r.subscriberId == i) = [] := by
      rw [List.filter_filter]
      apply List.filter_eq_nil_iff.mpr
      intro r _
      subst hid
      simp
    have hkeep : (mkTypeRows db.nextTypeId
          (ts.map (fun t => { t with subscriberId := ex.id }))).filter
        (fun r => r.subscriberId == i) =
        mkTypeRows db.nextTypeId (ts.map (fun t => { t with subscriberId := ex.id })) := by
      apply List.filter_eq_self.mpr
      intro r hr
      simp [hsub r hr]
    constructor
    · show ((_ : DB).types.filter _).map _ = _
      rw [htypes, List.filter_append, hfilter, hkeep, List.nil_append,
        mkTypeRows_map_name, List.map_map]
      rfl
    · intro r hr
      have : r ∈ (db.types.filter (fun u => !(u.subscriberId == ex.id)) ++
          mkTypeRows db.nextTypeId
            (ts.map (fun t => { t with subscriberId := ex.id }))).filter
          (fun u => u.subscriberId == i) := hr
      rw [List.filter_append, hfilter, hkeep, List.nil_append] at this
      exact hsub r this
  · intro hts
    have hupd : (updateSubscriber db i input).2 =
        ((db.deleteTypesOf ex.id).saveSub
          { ex with email := input.email, name := input.name }) := by
      simp [updateSubscriber, hf, hv, hts]
    rw [hupd]
    show ((db.deleteTypesOf ex.id).types).filter _ = []
    show (db.types.filter (fun r => !(r.subscriberId == ex.id))).filter
        (fun r => r.subscriberId == i) = []
    rw [List.filter_filter]
    apply List.filter_eq_nil_iff.mpr
    intro r _
    subst hid
    simp
  · intro hts
    simp [updateSubscriber, hf, hv, hts, DB.saveSub]

/-- Witness for C6 at a concrete database: replacing, emptying and omitting
the type list of subscriber 1. -/
theorem C6_update_type_list_overwrite_witness :
    (∀ ts, (some [(⟨99, "donor"⟩ : SubscriberTypeInput)] :
        Option (List SubscriberTypeInput)) = some ts → ts ≠ [] →
      (((updateSubscriber wDb 1 ⟨"a@b.co", "Al", some [⟨99, "donor"⟩]⟩).2.typesOf 1).map
          (fun r => r.name) = ts.map (fun t => t.name) ∧
      ∀ r ∈ (updateSubscriber wDb 1 ⟨"a@b.co", "Al", some [⟨99, "donor"⟩]⟩).2.typesOf 1,
        r.subscriberId = 1)) ∧
    ((some [(⟨99, "donor"⟩ : SubscriberTypeInput)] : Option (List SubscriberTypeInput)) =
        some [] →
      (updateSubscriber wDb 1 ⟨"a@b.co", "Al", some [⟨99, "donor"⟩]⟩).2.typesOf 1 = []) ∧
    ((some [(⟨99, "donor"⟩ : SubscriberTypeInput)] : Option (List SubscriberTypeInput)) =
        none →
      (updateSubscriber wDb 1 ⟨"a@b.co", "Al", some [⟨99, "donor"⟩]⟩).2.types = wDb.types) :=
  C6_update_type_list_overwrite wDb 1 ⟨"a@b.co", "Al", some [⟨99, "donor"⟩]⟩
    ⟨1, "a@b.co", "Alice"⟩ (by decide) (by decide)

/-- Claim C10: with a present non-empty type list, every type row the
update adds carries the path id as its `subscriber_id` (any row of the
post-state either predates the call or points at the addressed
subscriber), and the outcome is entirely insensitive to the
`subscriber_id` values supplied in the request body: any two inputs whose
type lists agree on names produce identical results. -/
theorem C10_update_retargets_subscriber_id :
    ∀ (db : DB) (i : Nat) (input : SubscriberInput) (ts : List SubscriberTypeInput),
      input.subscriberTypes = some ts → ts ≠ [] →
      (∀ r ∈ (updateSubscriber db i input).2.types, r ∈ db.types ∨ r.subscriberId = i) ∧
      (∀ ts2 : List SubscriberTypeInput,
        ts2.map (fun t => t.name) = ts.map (fun t => t.name) →
        updateSubscriber db i { input with subscriberTypes := some ts2 } =
          updateSubscriber db i input) := by
  intro db i input ts hts hne
  have hlen : ts.length > 0 := by
    cases ts
    · exact absurd rfl hne
    · simp
  constructor
  · rcases hf : db.findSub i with _ | ex
    · intro r hr
      simp [updateSubscriber, hf] at hr
      exact Or.inl hr
    · have hid : ex.id = i := findSub_id db i ex hf
      rcases hv : validateSubscriberFields input.email input.name with _ | m
      · intro r hr
        have hupd : (updateSubscriber db i input).2 =
            (((db.deleteTypesOf ex.id).insertTypeRows
                (ts.map (fun t => { t with subscriberId := ex.id }))).saveSub
              { ex with email := input.email, name := input.name }) := by
          simp [updateSubscriber, hf, hv, hts, hlen]
        rw [hupd] at hr
        have hr2 : r ∈ db.types.filter (fun u => !(u.subscriberId == ex.id)) ++
            mkTypeRows db.nextTypeId
              (ts.map (fun t => { t with subscriberId := ex.id })) := hr
        rcases List.mem_append.mp hr2 with hmem | hmem
        · exact Or.inl (List.mem_filter.mp hmem).1
        · refine Or.inr ?_
          apply mkTypeRows_subscriberId i db.nextTypeId _ _ r hmem
          intro t ht
          rcases List.mem_map.mp ht with ⟨u, _, hu⟩
          rw [← hu, hid]
      · intro r hr
        simp [updateSubscriber, hf, hv] at hr
        exact Or.inl hr
  · intro ts2 hmap
    have hlen2 : ts2.length > 0 := by
      have := congrArg List.length hmap
      simp at this
      omega
    rcases hf : db.findSub i with _ | ex
    · simp [updateSubscriber, hf]
    · rcases hv : validateSubscriberFields input.email input.name with _ | m
      · have hre : ∀ e : Nat, ts2.map (fun t => ({ t with subscriberId := e } :
            SubscriberTypeInput)) = ts.map (fun t => { t with subscriberId := e }) := by
          intro e
          calc ts2.map (fun t => ({ t with subscriberId := e } : SubscriberTypeInput))
              = (ts2.map (fun t => t.name)).map
                  (fun nm => ({ subscriberId := e, name := nm } : SubscriberTypeInput)) := by
                rw [List.map_map]
                rfl
            _ = (ts.map (fun t => t.name)).map
                  (fun nm => ({ subscriberId := e, name := nm } : SubscriberTypeInput)) := by
                rw [hmap]
            _ = ts.map (fun t => { t with subscriberId := e }) := by
                rw [List.map_map]
                rfl
        simp [updateSubscriber, hf, hv, hts, hlen, hlen2, hre ex.id]
      · simp [updateSubscriber, hf, hv]

/-- Witness for C10 at a concrete database: updating subscriber 1 with a
type row whose body claims `subscriber_id = 2` still attaches the row to
subscriber 1, and changing the claimed id does not change the outcome. -/
theorem C10_update_retargets_subscriber_id_witness :
    (∀ r ∈ (updateSubscriber wDb 1 ⟨"a@b.co", "Al", some [⟨2, "donor"⟩]⟩).2.types,
      r ∈ wDb.types ∨ r.subscriberId = 1) ∧
    (∀ ts2 : List SubscriberTypeInput,
      ts2.map (fun t => t.name) = [(⟨2, "donor"⟩ : SubscriberTypeInput)].map
        (fun t => t.name) →
      updateSubscriber wDb 1
          { (⟨"a@b.co", "Al", some [⟨2, "donor"⟩]⟩ : SubscriberInput) with
            subscriberTypes := some ts2 } =
        updateSubscriber wDb 1 ⟨"a@b.co", "Al", some [⟨2, "donor"⟩]⟩) :=
  C10_update_retargets_subscriber_id wDb 1 ⟨"a@b.co", "Al", some [⟨2, "donor"⟩]⟩
    [⟨2, "donor"⟩] rfl (by decide)

/-! ## Claim C4: the code-verification step is get-then-delete, not atomic

`VerifySignIn` (part_005 lines 82-93) calls `redisclient.GetValue` and then
`redisclient.DeleteKey` — two separate Redis commands (part_002: `Rdb.Get`
and `Rdb.Del`), not one atomic get-and-delete.  To examine the
consequence under concurrency we break the handler's store interaction
into its atomic per-key store operations: the program counter `VPc` walks
the calls of the code's happy path in program order, each `vstep` touching
the store exactly once.  `runTwo` interleaves two such executions under an
explicit schedule. -/

inductive VPc where
  | doGet : VPc
  | doDel : VPc
  | doSetSession : VPc
  | finished : Response → VPc
deriving DecidableEq, Repr

structure VThread where
  email : String
  code : String
  sessionID : String
  token : String
  pc : VPc
deriving DecidableEq, Repr

/-- One store operation of a `VerifySignIn` execution whose two request
fields are non-empty: the `GetValue` of the stored code (deciding
rejection or continuation exactly as the handler's tests do), the
`DeleteKey`, and the session `SetValue`; the JWT signing performs no store
operation and is folded into the final step. -/
def vstep (kv : Store) (t : VThread) : Store × VThread :=
  match t.pc with
  | .doGet =>
    match kv.get (signInCodeKey t.email) with
    | none => (kv, { t with pc := .finished respNoCode })
    | some sc =>
      if sc = "" then (kv, { t with pc := .finished respNoCode })
      else if sc = t.code then (kv, { t with pc := .doDel })
      else (kv, { t with pc := .finished respInvalidCode })
  | .doDel => (kv.del (signInCodeKey t.email), { t with pc := .doSetSession })
  | .doSetSession =>
    (kv.set ("session:" ++ t.sessionID) (userProfile t.email),
      { t with pc := .finished ⟨200, [("token", t.token)]⟩ })
  | .finished _ => (kv, t)

/-- Run two interleaved executions: `true` steps the first thread, `false`
the second. -/
def runTwo : Store → VThread → VThread → List Bool → Store × VThread × VThread
  | kv, t1, t2, [] => (kv, t1, t2)
  | kv, t1, t2, true :: rest =>
    let s := vstep kv t1
    runTwo s.1 s.2 t2 rest
  | kv, t1, t2, false :: rest =>
    let s := vstep kv t2
    runTwo s.1 t1 s.2 rest

/-- The sequential machine agrees with the handler: running one thread to
completion from `doGet` yields exactly `VerifySignIn`'s response and store
(success-path oracles fixed accordingly). -/
lemma vstep_refines_verifySignIn :
    ∀ (kv : Store) (email code sid tok : String), email ≠ "" → code ≠ "" →
      (runTwo kv ⟨email, code, sid, tok, .doGet⟩
          ⟨email, code, sid, tok, .finished respNoCode⟩ [true, true, true]).1 =
        (verifySignIn kv email code sid false (fun _ => some tok)).2 ∧
      (runTwo kv ⟨email, code, sid, tok, .doGet⟩
          ⟨email, code, sid, tok, .finished respNoCode⟩ [true, true, true]).2.1.pc =
        .finished (verifySignIn kv email code sid false (fun _ => some tok)).1 := by
  intro kv email code sid tok he hc
  rcases hget : kv.get (signInCodeKey email) with _ | sc
  · constructor <;> simp [runTwo, vstep, verifySignIn, he, hc, hget]
  · by_cases hsc : sc = ""
    · constructor <;> simp [runTwo, vstep, verifySignIn, he, hc, hget, hsc]
    · by_cases hm : sc = code
      · constructor <;> simp [runTwo, vstep, verifySignIn, he, hc, hget, hsc, hm]
      · constructor <;> simp [runTwo, vstep, verifySignIn, he, hc, hget, hsc, hm]

/-- The store and threads of the race scenario: one pending code
"123456" for "a@b.co" and two concurrent verifications of that code. -/
def raceKv : Store := emptyStore.set (signInCodeKey "a@b.co") "123456"

def raceT1 : VThread := ⟨"a@b.co", "123456", "sid1", "tok1", .doGet⟩

def raceT2 : VThread := ⟨"a@b.co", "123456", "sid2", "tok2", .doGet⟩

/-- Claim C4 fails on the code: because the lookup and the deletion are
separate store calls, the interleaving in which both threads perform
their `GetValue` before either `DeleteKey` lets BOTH concurrent
verifications of the same single-use code succeed with status 200 —
an atomic get-and-delete would let exactly one succeed. -/
theorem C4_get_then_delete_both_succeed :
    (runTwo raceKv raceT1 raceT2 [true, false, true, true, false, false]).2.1.pc =
      VPc.finished ⟨200, [("token", "tok1")]⟩ ∧
    (runTwo raceKv raceT1 raceT2 [true, false, true, true, false, false]).2.2.pc =
      VPc.finished ⟨200, [("token", "tok2")]⟩ := by
  refine ⟨by decide, by decide⟩

end Api
